import Mathlib

/-!
Verification of the ILoveSOL pipeline (ILove.py / ILove_optimized.py)
against its natural-language specification.

Shallow embedding conventions:
* Python floats are modelled as rationals (`ℚ`); numeric comparisons carry
  over unchanged.
* Loosely-typed remote payload attributes are modelled as `Option` fields
  (`none` = attribute absent / `None`); where the code only tests Python
  truthiness of a string, the embedding tests `!= ""` on the wrapped value.
* External effects (HTTP calls, logging, file writes, Telegram) are modelled
  as oracles (functions giving each call's outcome) and as recorded trace
  events.
* Failure reasons, built with f-strings in the code, are modelled as a
  structured inductive type carrying the interpolated payloads; the decimal
  rendering of numbers inside the message text is abstracted away.
-/

namespace ILoveSOL

/-! ## Address validator

`is_valid_solana_address` (ILove.py:62-64, ILove_optimized.py:119-121) is
`re.match(r'^[1-9A-HJ-NP-Za-km-z]{32,44}$', address) is not None`.
Python `re` semantics for this anchored pattern: the quantified class must
match 32-44 consecutive characters starting at position 0, and `$` then
matches either at the end of the string or just before a single trailing
newline at the end of the string. -/

/-- Membership in the regex character class `[1-9A-HJ-NP-Za-km-z]`. -/
def isBase58Char (c : Char) : Bool :=
  ('1' ≤ c && c ≤ '9') || ('A' ≤ c && c ≤ 'H') || ('J' ≤ c && c ≤ 'N') ||
  ('P' ≤ c && c ≤ 'Z') || ('a' ≤ c && c ≤ 'k') || ('m' ≤ c && c ≤ 'z')

/-- 32 to 44 characters, all from the class: what the regex consumes before
the `$` anchor. -/
def matchesCore (cs : List Char) : Bool :=
  decide (32 ≤ cs.length) && decide (cs.length ≤ 44) && cs.all isBase58Char

/-- `is_valid_solana_address`: the regex match succeeds either on the whole
string, or on all but a single trailing newline (Python `$`). -/
def is_valid_solana_address (s : String) : Bool :=
  matchesCore s.data ||
  (s.data.getLast? == some '\n' && matchesCore s.data.dropLast)

/-- The spec's description of the address alphabet: alphanumeric characters
excluding the visually ambiguous `0`, `O`, `I`, `l`. -/
def spec_address_char (c : Char) : Bool :=
  c.isAlphanum && !(c == '0') && !(c == 'O') && !(c == 'I') && !(c == 'l')

/-- The spec's acceptance condition on the character list of a candidate
string: length in [32,44] and every character in the spec's alphabet. -/
def spec_core (cs : List Char) : Bool :=
  decide (32 ≤ cs.length) && decide (cs.length ≤ 44) && cs.all spec_address_char

/-! ## Risk evaluator (`perform_rug_check`, ILove.py:225-292) -/

/-- One record of the remote `topHolders` list; the code reads the keys
`percentage` (ILove.py:262-263) and `amount` (ILove_optimized.py:270-277).
A missing key is `none`. -/
structure Holder where
  amount : ℚ
  percentage : Option ℚ
  deriving DecidableEq

/-- The two accepted shapes of the remote `topHolders` attribute
(ILove.py:258-263): a dict with an optional `totalPercentage` key, or a
list of per-holder records. -/
inductive TopHolders where
  | dictShape (totalPercentage : Option ℚ)
  | listShape (holders : List Holder)
  deriving DecidableEq

/-- The remote rug-check response as read by `perform_rug_check`:
each attribute is `none` when absent (`hasattr` fails) or `None`. -/
structure RugcheckResponse where
  mintAuthority : Option String
  freezeAuthority : Option String
  topHolders : Option TopHolders
  score : Option ℚ
  deriving DecidableEq

/-- The `rugcheck_config` section of the configuration (ILove.py:245-272). -/
structure RugcheckConfig where
  check_mint_authority : Bool
  check_freeze_authority : Bool
  check_top_holders : Bool
  max_top_holders_percentage : ℚ
  risk_score_threshold : ℚ
  deriving DecidableEq

/-- Failure reasons appended by `perform_rug_check`, one constructor per
f-string in the code, carrying the interpolated values. -/
inductive Reason where
  | invalidAddressFormat
  | noData
  | invalidData
  | networkError (msg : String)
  | unexpectedError (msg : String)
  | mintAuthorityEnabled (authority : String)
  | freezeAuthorityEnabled (authority : String)
  | topHoldersTooMuch (pct maxPct : ℚ)
  | riskScoreTooHigh (score threshold : ℚ)
  deriving DecidableEq

/-- `rc.mintAuthority and rc.mintAuthority != 'disabled'` (and the same
test for the freeze authority): the attribute is present, truthy
(non-empty), and not the literal `"disabled"`. -/
def authorityViolated (a : Option String) : Bool :=
  match a with
  | some s => s != "" && s != "disabled"
  | none => false

def mintViolated (rc : RugcheckResponse) : Bool :=
  authorityViolated rc.mintAuthority

def freezeViolated (rc : RugcheckResponse) : Bool :=
  authorityViolated rc.freezeAuthority

/-- The holder-concentration number computed at ILove.py:256-263:
`totalPercentage` (default 0) for the dict shape, the sum of the present
`percentage` fields for a non-empty list shape, 0 otherwise. -/
def topHoldersPercentage (th : Option TopHolders) : ℚ :=
  match th with
  | some (.dictShape tp) => tp.getD 0
  | some (.listShape hs) =>
      if 0 < hs.length then
        hs.foldl (fun acc h =>
          match h.percentage with
          | some p => acc + p
          | none => acc) 0
      else 0
  | none => 0

def holdersViolated (config : RugcheckConfig) (rc : RugcheckResponse) : Bool :=
  decide (config.max_top_holders_percentage < topHoldersPercentage rc.topHolders)

def scoreViolated (config : RugcheckConfig) (rc : RugcheckResponse) : Bool :=
  match rc.score with
  | some s => decide (config.risk_score_threshold < s)
  | none => false

/-- ILove.py:244-247 (mint-authority criterion, gated by its config flag). -/
def mintCheckReasons (config : RugcheckConfig) (rc : RugcheckResponse) : List Reason :=
  if config.check_mint_authority then
    match rc.mintAuthority with
    | some a => if a != "" && a != "disabled" then [Reason.mintAuthorityEnabled a] else []
    | none => []
  else []

/-- ILove.py:249-252 (freeze-authority criterion, gated by its config flag). -/
def freezeCheckReasons (config : RugcheckConfig) (rc : RugcheckResponse) : List Reason :=
  if config.check_freeze_authority then
    match rc.freezeAuthority with
    | some a => if a != "" && a != "disabled" then [Reason.freezeAuthorityEnabled a] else []
    | none => []
  else []

/-- ILove.py:254-267 (top-holder concentration criterion, gated by its
config flag). -/
def holdersCheckReasons (config : RugcheckConfig) (rc : RugcheckResponse) : List Reason :=
  if config.check_top_holders then
    let pct := topHoldersPercentage rc.topHolders
    if config.max_top_holders_percentage < pct then
      [Reason.topHoldersTooMuch pct config.max_top_holders_percentage]
    else []
  else []

/-- ILove.py:269-273 (risk-score criterion; note there is no config flag
guarding this block, only the presence test on `rc.score`). -/
def scoreCheckReasons (config : RugcheckConfig) (rc : RugcheckResponse) : List Reason :=
  match rc.score with
  | some s =>
      if config.risk_score_threshold < s then
        [Reason.riskScoreTooHigh s config.risk_score_threshold]
      else []
  | none => []

/-- The four criterion blocks of one successful attempt (ILove.py:244-273),
run unconditionally one after the other, each appending its reasons. -/
def evaluateResponse (config : RugcheckConfig) (rc : RugcheckResponse) : List Reason :=
  mintCheckReasons config rc ++ freezeCheckReasons config rc ++
  holdersCheckReasons config rc ++ scoreCheckReasons config rc

/-- Outcome of one iteration of the retry loop's `rugcheck` call:
a response object, a falsy response (`if not rc`), or one of the three
exception classes caught at ILove.py:279-290. -/
inductive AttemptOutcome where
  | ok (rc : RugcheckResponse)
  | noData
  | jsonDecodeError
  | requestError (msg : String)
  | otherError (msg : String)

/-- The retry loop of `perform_rug_check` (ILove.py:234-290), iterating over
the remaining attempt indices. `failure_reasons` accumulates across
attempts; exception reasons are appended only on the last attempt
(`attempt == max_retries - 1`); a falsy response records its reason at once
and resets `rc_result` to the falsy value. -/
def rugCheckGo (config : RugcheckConfig) (oracle : Nat → AttemptOutcome)
    (maxRetries : Nat) :
    List Nat → List Reason → Option RugcheckResponse →
    Bool × List Reason × Option RugcheckResponse
  | [], reasons, rcResult => (false, reasons, rcResult)
  | attempt :: rest, reasons, rcResult =>
    match oracle attempt with
    | .ok rc =>
        let reasons' := reasons ++ evaluateResponse config rc
        if reasons'.isEmpty then (true, [], some rc) else (false, reasons', some rc)
    | .noData =>
        rugCheckGo config oracle maxRetries rest (reasons ++ [Reason.noData]) none
    | .jsonDecodeError =>
        rugCheckGo config oracle maxRetries rest
          (if attempt == maxRetries - 1 then reasons ++ [Reason.invalidData] else reasons)
          rcResult
    | .requestError msg =>
        rugCheckGo config oracle maxRetries rest
          (if attempt == maxRetries - 1 then reasons ++ [Reason.networkError msg] else reasons)
          rcResult
    | .otherError msg =>
        rugCheckGo config oracle maxRetries rest
          (if attempt == maxRetries - 1 then reasons ++ [Reason.unexpectedError msg] else reasons)
          rcResult

/-- `perform_rug_check(token_address, config, max_retries)` (ILove.py:225-292):
reject malformed addresses up front, then run the retry loop; falling out of
the loop returns `(False, failure_reasons, rc_result)`. The `oracle` gives
the outcome of the `rugcheck` call on each attempt index. -/
def perform_rug_check (token_address : String) (config : RugcheckConfig)
    (oracle : Nat → AttemptOutcome) (maxRetries : Nat) :
    Bool × List Reason × Option RugcheckResponse :=
  if !is_valid_solana_address token_address then
    (false, [Reason.invalidAddressFormat], none)
  else
    rugCheckGo config oracle maxRetries (List.range maxRetries) [] none

/-! ## Token extraction (`extract_token_address`, ILove.py:329-364 and
ILove_optimized.py:215-231) -/

/-- One record of `tokenTransfers`; the code reads `mint` and
`fromTokenAccount`, both tested for truthiness. -/
structure TokenTransfer where
  mint : Option String
  fromTokenAccount : Option String
  deriving DecidableEq

/-- One record of `instructions`; the code reads `program`, `parsed.type`
and `parsed.info.mint` (missing levels default to `{}`, hence `none`). -/
structure SplInstruction where
  program : Option String
  parsedType : Option String
  parsedInfoMint : Option String
  deriving DecidableEq

/-- The slice of a Helius transaction payload read by the extractors. -/
structure TxDetail where
  tokenTransfers : List TokenTransfer
  instructions : List SplInstruction
  accountKeys : List String
  deriving DecidableEq

def WRAPPED_SOL : String := "So11111111111111111111111111111111111111112"

/-- `if mint and mint != "So111...112" and from_account:` (ILove.py:336-338):
the transfer's mint is truthy, not the native wrapped asset, and its origin
token account is truthy. -/
def transferQualifies (t : TokenTransfer) : Bool :=
  match t.mint, t.fromTokenAccount with
  | some m, some fa => m != "" && m != WRAPPED_SOL && fa != ""
  | _, _ => false

/-- The value returned for a qualifying transfer (its mint), else nothing. -/
def transferMint (t : TokenTransfer) : Option String :=
  if transferQualifies t then t.mint else none

/-- ILove.py:344-351: an `spl-token` instruction parsed as `initializeMint`
with a truthy `parsed.info.mint` yields that mint. -/
def initializeMintOf (i : SplInstruction) : Option String :=
  if i.program == some "spl-token" && i.parsedType == some "initializeMint" then
    match i.parsedInfoMint with
    | some m => if m != "" then some m else none
    | none => none
  else none

/-- `extract_token_address(transaction_data, source)` (ILove.py:329-364):
for `raydium`, first matching token transfer, else first `initializeMint`
instruction; for `pump_fun`, the last entry of `accountKeys` if truthy and
format-valid; `None` otherwise. -/
def extract_token_address (tx : TxDetail) (source : String) : Option String :=
  if source == "raydium" then
    match tx.tokenTransfers.findSome? transferMint with
    | some m => some m
    | none => tx.instructions.findSome? initializeMintOf
  else if source == "pump_fun" then
    match tx.accountKeys.getLast? with
    | some k => if k != "" && is_valid_solana_address k then some k else none
    | none => none
  else none

/-- `extract_token_address(transaction_data)` (ILove_optimized.py:215-231):
only the transfer scan, and the candidate mint must additionally pass the
format validation or the scan continues; no instruction fallback. -/
def extract_token_address_optimized (tx : TxDetail) : Option String :=
  tx.tokenTransfers.findSome? (fun t =>
    match transferMint t with
    | some m => if is_valid_solana_address m then some m else none
    | none => none)

/-! ## Transaction resolver (`fetch_transaction_details`, ILove.py:315-327) -/

/-- Outcome of the single HTTP POST: a transport-level exception, a
non-success status (`raise_for_status`), an unparsable body, or a parsed
JSON value (`none` when the value is not a list). -/
inductive FetchOutcome where
  | transportError
  | badStatus (status : Nat)
  | parseError
  | parsed (data : Option (List TxDetail))

/-- `fetch_transaction_details(signature)`: exactly one request is issued
(the function body contains no loop); any exception path returns `None`;
a parsed list returns its first element. The second component records how
many requests were made. -/
def fetch_transaction_details (responses : Nat → FetchOutcome) :
    Option TxDetail × Nat :=
  match responses 0 with
  | .parsed (some (d :: _)) => (some d, 1)
  | .parsed _ => (none, 1)
  | .transportError => (none, 1)
  | .badStatus _ => (none, 1)
  | .parseError => (none, 1)

/-- Did the single request fail with a transport error or non-success
status? -/
def fetchFailed : FetchOutcome → Bool
  | .transportError => true
  | .badStatus _ => true
  | _ => false

/-! ## Pipeline worker (`process_new_pool`, ILove.py:525-577)

The function's externally visible actions are recorded as an event trace;
the Telegram block (DexScreener lookup, message formatting, photo) is
collapsed into a single `telegramSent` event. -/

inductive PEvent where
  | logNewPool (sig : String)
  | fetchAttempt (sig : String)
  | logFetchFailed
  | logNoTokenMint
  | logInvalidAddress (mint : String)
  | rugCheckCall (mint : String)
  | logPassed
  | logFailed (reasons : List Reason)
  | savedToken (file : String) (mint : String)
  | telegramSent (mint : String)
  deriving DecidableEq

def isRugCheckCall : PEvent → Bool
  | .rugCheckCall _ => true
  | _ => false

def isFetchFailedLog : PEvent → Bool
  | .logFetchFailed => true
  | _ => false

/-- `process_new_pool(signature, logs, active_program, config)`
(ILove.py:525-577). `logs` is received but not consulted by the body.
Oracles: `txResponses` for the resolver's HTTP exchange, `rugOracle` for the
evaluator's remote calls, `telegramConfigured` for the credential check. -/
def process_new_pool (signature : String) (logs : List String)
    (programName source : String) (config : RugcheckConfig)
    (txResponses : Nat → FetchOutcome) (rugOracle : Nat → AttemptOutcome)
    (telegramConfigured : Bool) : List PEvent :=
  let _ := logs
  let _ := programName
  let start := [PEvent.logNewPool signature, PEvent.fetchAttempt signature]
  match (fetch_transaction_details txResponses).1 with
  | none => start ++ [PEvent.logFetchFailed]
  | some tx =>
    match extract_token_address tx source with
    | none => start ++ [PEvent.logNoTokenMint]
    | some mint =>
      if is_valid_solana_address mint then
        let res := perform_rug_check mint config rugOracle 3
        if res.1 then
          start ++ [PEvent.rugCheckCall mint, PEvent.logPassed,
            PEvent.savedToken "valid_tokens.json" mint] ++
            (if telegramConfigured then [PEvent.telegramSent mint] else [])
        else
          start ++ [PEvent.rugCheckCall mint, PEvent.logFailed res.2.1,
            PEvent.savedToken "unchecked_tokens.json" mint]
      else start ++ [PEvent.logInvalidAddress mint]

/-! ## Persistence store (`save_token_to_file`, ILove.py:294-313) -/

/-- The states a token file can be in from the reader's viewpoint:
absent, present but empty, unparsable JSON, valid JSON that is not a list,
or a JSON list of strings. -/
inductive FileState where
  | missing
  | emptyFile
  | corrupt
  | nonList
  | jsonList (tokens : List String)
  deriving DecidableEq

/-- ILove.py:297-305: every non-list state loads as `[]`. -/
def loadedTokens : FileState → List String
  | .jsonList ts => ts
  | _ => []

/-- `save_token_to_file(token_address, filename)` (ILove.py:294-313): load,
then append and rewrite only when the token is not already present; when it
is present nothing is written and the file is untouched. -/
def save_token_to_file (token : String) (fs : FileState) : FileState :=
  let existing := loadedTokens fs
  if token ∈ existing then fs
  else FileState.jsonList (existing ++ [token])

/-! ## Stream connection backoff
(`maintain_websocket_connection`, ILove_optimized.py:358-417, and
`websocket_connection`, ILove.py:366-393) -/

/-- One iteration of the optimized reconnect loop: either the
connect/subscribe step raises, or a connection is established (and the
backoff reset to 1) and then delivers `messages` messages before closing. -/
inductive Episode where
  | connectFail
  | connected (messages : Nat)
  deriving DecidableEq

/-- The spec's stability notion: a connection that survives its first
message. (The alternative "minimum uptime" clock is not modelled.) -/
def spec_stable_connection : Episode → Bool
  | .connected n => decide (1 ≤ n)
  | .connectFail => false

/-- Backoff state after one loop iteration (ILove_optimized.py:363-417):
every iteration ends with `sleep(backoff_time)` followed by
`backoff_time = min(backoff_time * 2, 60)`; a successful connect/subscribe
resets `backoff_time` to 1 first. -/
def nextBackoff : Episode → Nat → Nat
  | .connectFail, b => min (b * 2) 60
  | .connected _, _ => min (1 * 2) 60

/-- The delay actually slept at the end of one loop iteration. -/
def episodeDelay : Episode → Nat → Nat
  | .connectFail, b => b
  | .connected _, _ => 1

/-- The sequence of reconnect delays slept by the optimized loop along a
run of episodes, starting from backoff state `b` (initially 1). -/
def stepDelays : List Episode → Nat → List Nat
  | [], _ => []
  | e :: rest, b => episodeDelay e b :: stepDelays rest (nextBackoff e b)

/-- The delays slept inside one call of `websocket_connection(active, 5, 5)`
(ILove.py:366-393) when the first `failures` attempts fail: the loop sleeps
after each failed attempt except the last (which re-raises), doubling and
capping at 60. -/
def wsConnectionDelays : Nat → Nat → Nat → List Nat
  | 0, _, _ => []
  | _ + 1, 0, _ => []
  | _ + 1, 1, _ => []
  | failures + 1, remaining + 2, b =>
    b :: wsConnectionDelays failures (remaining + 1) (min (b * 2) 60)

/-! ## Optimized holder concentration
(`perform_rugcheck_async`, ILove_optimized.py:261-293) -/

/-- `sorted(rc.topHolders, key=lambda x: x['amount'], reverse=True)`:
a stable sort by descending raw amount. -/
def sortHoldersDesc (holders : List Holder) : List Holder :=
  holders.mergeSort (fun a b => decide (b.amount ≤ a.amount))

/-- `total_percentage` as computed at ILove_optimized.py:270-279: total raw
amount over the listed holders, then the sum of `amount / total * 100`
(0 when the total is not positive) over the top 10 holders by descending
amount. -/
def optTotalPercentage (holders : List Holder) : ℚ :=
  let total := (holders.map Holder.amount).sum
  ((sortHoldersDesc holders).take 10).foldl
    (fun acc h => acc + (if 0 < total then h.amount / total * 100 else 0)) 0

/-! ## Theorems -/

/-- The regex class `[1-9A-HJ-NP-Za-km-z]` is exactly the spec's alphabet:
alphanumerics minus the visually ambiguous `0`, `O`, `I`, `l`. -/
theorem base58_char_spec (c : Char) : isBase58Char c = spec_address_char c := by
  simp only [isBase58Char, spec_address_char, Char.isAlphanum, Char.isAlpha,
    Char.isUpper, Char.isLower, Char.isDigit]
  rw [Bool.eq_iff_iff]
  simp only [Char.le_def, UInt32.le_def, BitVec.le_def, decide_eq_true_eq,
    Bool.or_eq_true, Bool.and_eq_true, beq_iff_eq, Bool.not_eq_true',
    beq_eq_false_iff_ne, ne_eq, Char.ext_iff, UInt32.ext_iff, BitVec.toNat_eq,
    show ('1' : Char).val.toBitVec.toNat = 49 from rfl,
    show ('9' : Char).val.toBitVec.toNat = 57 from rfl,
    show ('A' : Char).val.toBitVec.toNat = 65 from rfl,
    show ('H' : Char).val.toBitVec.toNat = 72 from rfl,
    show ('J' : Char).val.toBitVec.toNat = 74 from rfl,
    show ('N' : Char).val.toBitVec.toNat = 78 from rfl,
    show ('P' : Char).val.toBitVec.toNat = 80 from rfl,
    show ('Z' : Char).val.toBitVec.toNat = 90 from rfl,
    show ('a' : Char).val.toBitVec.toNat = 97 from rfl,
    show ('k' : Char).val.toBitVec.toNat = 107 from rfl,
    show ('m' : Char).val.toBitVec.toNat = 109 from rfl,
    show ('z' : Char).val.toBitVec.toNat = 122 from rfl,
    show ('0' : Char).val.toBitVec.toNat = 48 from rfl,
    show ('O' : Char).val.toBitVec.toNat = 79 from rfl,
    show ('I' : Char).val.toBitVec.toNat = 73 from rfl,
    show ('l' : Char).val.toBitVec.toNat = 108 from rfl,
    show (UInt32.toBitVec 48).toNat = 48 from rfl,
    show (UInt32.toBitVec 57).toNat = 57 from rfl,
    show (UInt32.toBitVec 65).toNat = 65 from rfl,
    show (UInt32.toBitVec 90).toNat = 90 from rfl,
    show (UInt32.toBitVec 97).toNat = 97 from rfl,
    show (UInt32.toBitVec 122).toNat = 122 from rfl,
    show ('0' : Char).val.toNat = 48 from rfl,
    show ('O' : Char).val.toNat = 79 from rfl,
    show ('I' : Char).val.toNat = 73 from rfl,
    show ('l' : Char).val.toNat = 108 from rfl, UInt32.toNat]
  omega

theorem matchesCore_eq_spec_core (cs : List Char) : matchesCore cs = spec_core cs := by
  unfold matchesCore spec_core
  congr 1
  induction cs with
  | nil => rfl
  | cons c t ih => simp only [List.all_cons, base58_char_spec, ih]

/-- C3 counterexample: 32 valid characters followed by a newline. The
validator accepts it (Python's `$` matches before a trailing newline), but
its last character is outside the address alphabet, so the claimed
"accepts iff length in [32,44] and charset-valid" is false for this string.
-/
theorem c3_counterexample_trailing_newline :
    is_valid_solana_address (String.mk (List.replicate 32 '1' ++ ['\n'])) = true ∧
    spec_core (String.mk (List.replicate 32 '1' ++ ['\n'])).data = false := by
  constructor
  · decide
  · decide

/-- C3 (amended): the Address Validator accepts `s` exactly when either `s`
itself is 32-44 characters all from the alphabet (alphanumerics excluding
`0`, `O`, `I`, `l`), or `s` is such a core followed by one trailing newline
(an artifact of the host regex engine's `$` anchor); every other string is
rejected. -/
theorem c3_address_validator_amended (s : String) :
    is_valid_solana_address s =
      (spec_core s.data ||
        (s.data.getLast? == some '\n' && spec_core s.data.dropLast)) := by
  unfold is_valid_solana_address
  rw [matchesCore_eq_spec_core, matchesCore_eq_spec_core]

/-- C2 (Scenario B): for the response
`{mintAuthority:"enabled", freezeAuthority:"disabled",
topHolders.totalPercentage:85, score:30}` under an all-enabled
configuration with `max_top_holders_percentage = 70` and
`risk_score_threshold = 40`, the evaluation fails with exactly the
mint-authority reason (payload `"enabled"`) and the top-holders reason
(payload 85 vs 70) and no score-based reason. `Reason.mintAuthorityEnabled
"enabled"` renders as "Mint authority enabled (enabled)" and
`Reason.topHoldersTooMuch 85 70` as "Top holders control too much
(85% > 70%)". The token address is an arbitrary well-formed one. -/
theorem c2_scenario_b :
    perform_rug_check "11111111111111111111111111111111"
      ⟨true, true, true, 70, 40⟩
      (fun _ => AttemptOutcome.ok
        ⟨some "enabled", some "disabled", some (TopHolders.dictShape (some 85)), some 30⟩) 3 =
    (false,
      [Reason.mintAuthorityEnabled "enabled", Reason.topHoldersTooMuch 85 70],
      some ⟨some "enabled", some "disabled", some (TopHolders.dictShape (some 85)), some 30⟩) := by
  decide

/-- C8: appending an identifier that is already present in the persisted
list is a no-op: nothing is written and the file state (hence the
deserialized set of identifiers) is unchanged. -/
theorem c8_save_idempotent (token : String) (tokens : List String)
    (h : token ∈ tokens) :
    save_token_to_file token (FileState.jsonList tokens) =
      FileState.jsonList tokens := by
  simp [save_token_to_file, loadedTokens, h]

theorem c8_save_idempotent_witness :
    save_token_to_file "tok1" (FileState.jsonList ["tok1", "tok2"]) =
      FileState.jsonList ["tok1", "tok2"] :=
  c8_save_idempotent "tok1" ["tok1", "tok2"] (by decide)

/-- The transfer scan returns the mint of the first qualifying transfer. -/
theorem findSome?_transferMint_eq (l : List TokenTransfer) :
    l.findSome? transferMint = (l.find? transferQualifies).bind TokenTransfer.mint := by
  induction l with
  | nil => rfl
  | cons t rest ih =>
    by_cases h : transferQualifies t = true
    · simp [List.findSome?_cons, List.find?_cons, h, transferMint]
      obtain ⟨mo, fo⟩ := t
      cases mo with
      | none => simp [transferQualifies] at h
      | some m => cases fo with
        | none => simp [transferQualifies] at h
        | some fa => rfl
    · rw [Bool.not_eq_true] at h
      simp [List.findSome?_cons, List.find?_cons, h, transferMint, ih]

/-- Unfolding of the raydium branch of `extract_token_address`. -/
theorem extract_raydium_eq (tx : TxDetail) :
    extract_token_address tx "raydium" =
      match tx.tokenTransfers.findSome? transferMint with
      | some m => some m
      | none => tx.instructions.findSome? initializeMintOf := rfl

/-- Unfolding of the pump_fun branch of `extract_token_address`. -/
theorem extract_pump_fun_eq (tx : TxDetail) :
    extract_token_address tx "pump_fun" =
      match tx.accountKeys.getLast? with
      | some k => if k != "" && is_valid_solana_address k then some k else none
      | none => none := rfl

/-- When no token-transfer record qualifies, the raydium extraction equals
the instruction fallback scan. -/
theorem extract_raydium_fallback (tx : TxDetail)
    (h : tx.tokenTransfers.all (fun t => !transferQualifies t) = true) :
    extract_token_address tx "raydium" = tx.instructions.findSome? initializeMintOf := by
  have hfind : tx.tokenTransfers.find? transferQualifies = none := by
    rw [List.find?_eq_none]
    intro x hx
    have hx' := (List.all_eq_true.mp h) x hx
    simp only [Bool.not_eq_true'] at hx'
    simp [hx']
  rw [extract_raydium_eq, findSome?_transferMint_eq, hfind]
  rfl

/-- C6 counterexample: a raydium payload with no token-transfer records at
all (so no record matches) but with an `spl-token initializeMint`
instruction. The extractor does not return none; it returns the
instruction's mint via the fallback, refuting "returns none when no such
record matches". -/
theorem c6_counterexample_instruction_fallback :
    extract_token_address
      ⟨[], [⟨some "spl-token", some "initializeMint", some "FallbackMint"⟩], []⟩
      "raydium" = some "FallbackMint" ∧
    (⟨[], [⟨some "spl-token", some "initializeMint", some "FallbackMint"⟩], []⟩ :
      TxDetail).tokenTransfers.all (fun t => !transferQualifies t) = true := by
  constructor
  · decide
  · decide

/-- C6 (amended): for source raydium the basic extractor returns the mint
of the first token-transfer record whose mint is truthy, not the native
wrapped asset, and whose origin token account is present; when no record
matches it does not return none but falls back to scanning the instruction
list for the first `spl-token initializeMint` (the optimized variant has no
fallback and also requires the transfer's mint to be format-valid); for
source pump_fun it returns the last entry of the flat account-key list,
subject to truthiness and format validation, and none for an empty list.
The extraction is a pure function of the payload. -/
theorem c6_extractor_amended (tx : TxDetail) :
    (∀ t, tx.tokenTransfers.find? transferQualifies = some t →
      extract_token_address tx "raydium" = t.mint) ∧
    (tx.tokenTransfers.all (fun t => !transferQualifies t) = true →
      extract_token_address tx "raydium" = tx.instructions.findSome? initializeMintOf) ∧
    (∀ k, tx.accountKeys.getLast? = some k →
      extract_token_address tx "pump_fun" =
        if k != "" && is_valid_solana_address k then some k else none) ∧
    (tx.accountKeys = [] → extract_token_address tx "pump_fun" = none) := by
  refine ⟨?_, extract_raydium_fallback tx, ?_, ?_⟩
  · intro t ht
    rw [extract_raydium_eq, findSome?_transferMint_eq, ht]
    have hq : transferQualifies t = true := List.find?_some ht
    obtain ⟨mo, fo⟩ := t
    cases mo with
    | none => simp [transferQualifies] at hq
    | some m => cases fo with
      | none => simp [transferQualifies] at hq
      | some fa => rfl
  · intro k hk
    rw [extract_pump_fun_eq, hk]
  · intro hk
    rw [extract_pump_fun_eq, hk]
    rfl

theorem c6_extractor_amended_witness :
    extract_token_address ⟨[⟨some "Mint11", some "FromAcct"⟩], [], []⟩ "raydium" =
      some "Mint11" :=
  (c6_extractor_amended ⟨[⟨some "Mint11", some "FromAcct"⟩], [], []⟩).1
    ⟨some "Mint11", some "FromAcct"⟩ (by decide)

/-- C9: when no token-transfer record of a raydium payload qualifies (no
truthy non-native mint with a present origin token account), the extractor
does not immediately return none: its result is exactly the scan of the
instruction list for the first `spl-token` instruction parsed as
`initializeMint`, and is none only when that fallback also finds nothing. -/
theorem c9_instruction_fallback (tx : TxDetail)
    (h : tx.tokenTransfers.all (fun t => !transferQualifies t) = true) :
    extract_token_address tx "raydium" = tx.instructions.findSome? initializeMintOf ∧
    (extract_token_address tx "raydium" = none ↔
      tx.instructions.findSome? initializeMintOf = none) := by
  have he := extract_raydium_fallback tx h
  exact ⟨he, by rw [he]⟩

theorem c9_instruction_fallback_witness :
    extract_token_address
      ⟨[⟨some WRAPPED_SOL, some "acct"⟩],
       [⟨some "spl-token", some "initializeMint", some "NewMint11"⟩], []⟩
      "raydium" = some "NewMint11" :=
  ((c9_instruction_fallback
      ⟨[⟨some WRAPPED_SOL, some "acct"⟩],
       [⟨some "spl-token", some "initializeMint", some "NewMint11"⟩], []⟩
      (by decide)).1).trans (by decide)

/-- C5: when the single transaction-detail request fails with a transport
error or a non-success status, the resolver returns "not found" after
exactly one request attempt (its body has no retry loop), and the pipeline
worker discards the event with one logged fetch failure, never reaching the
Risk Evaluator: the whole trace is the two entry events plus the single
failure log, with zero rug-check invocations. -/
theorem c5_resolver_no_retry (responses : Nat → FetchOutcome)
    (sig : String) (logs : List String) (programName source : String)
    (config : RugcheckConfig) (rugOracle : Nat → AttemptOutcome)
    (telegramConfigured : Bool)
    (h : fetchFailed (responses 0) = true) :
    fetch_transaction_details responses = (none, 1) ∧
    process_new_pool sig logs programName source config responses rugOracle
        telegramConfigured =
      [PEvent.logNewPool sig, PEvent.fetchAttempt sig, PEvent.logFetchFailed] ∧
    (process_new_pool sig logs programName source config responses rugOracle
        telegramConfigured).countP isRugCheckCall = 0 ∧
    (process_new_pool sig logs programName source config responses rugOracle
        telegramConfigured).countP isFetchFailedLog = 1 := by
  cases hr : responses 0 with
  | transportError =>
    refine ⟨by simp [fetch_transaction_details, hr], ?_⟩
    have hp : process_new_pool sig logs programName source config responses rugOracle
        telegramConfigured =
        [PEvent.logNewPool sig, PEvent.fetchAttempt sig, PEvent.logFetchFailed] := by
      simp [process_new_pool, fetch_transaction_details, hr]
    refine ⟨hp, ?_, ?_⟩ <;>
      simp [hp, List.countP_cons, isRugCheckCall, isFetchFailedLog]
  | badStatus code =>
    refine ⟨by simp [fetch_transaction_details, hr], ?_⟩
    have hp : process_new_pool sig logs programName source config responses rugOracle
        telegramConfigured =
        [PEvent.logNewPool sig, PEvent.fetchAttempt sig, PEvent.logFetchFailed] := by
      simp [process_new_pool, fetch_transaction_details, hr]
    refine ⟨hp, ?_, ?_⟩ <;>
      simp [hp, List.countP_cons, isRugCheckCall, isFetchFailedLog]
  | parseError => rw [hr] at h; simp [fetchFailed] at h
  | parsed d => rw [hr] at h; simp [fetchFailed] at h

theorem c5_resolver_no_retry_witness :
    fetch_transaction_details (fun _ => FetchOutcome.transportError) = (none, 1) ∧
    process_new_pool "sig1" [] "Raydium" "raydium" ⟨true, true, true, 70, 40⟩
        (fun _ => FetchOutcome.transportError) (fun _ => AttemptOutcome.noData) false =
      [PEvent.logNewPool "sig1", PEvent.fetchAttempt "sig1", PEvent.logFetchFailed] ∧
    (process_new_pool "sig1" [] "Raydium" "raydium" ⟨true, true, true, 70, 40⟩
        (fun _ => FetchOutcome.transportError) (fun _ => AttemptOutcome.noData)
        false).countP isRugCheckCall = 0 ∧
    (process_new_pool "sig1" [] "Raydium" "raydium" ⟨true, true, true, 70, 40⟩
        (fun _ => FetchOutcome.transportError) (fun _ => AttemptOutcome.noData)
        false).countP isFetchFailedLog = 1 :=
  c5_resolver_no_retry (fun _ => FetchOutcome.transportError) "sig1" [] "Raydium"
    "raydium" ⟨true, true, true, 70, 40⟩ (fun _ => AttemptOutcome.noData) false rfl

/-- With a well-formed address and a response on the first attempt, the
retry loop returns after that one attempt: pass iff no criterion fired, the
collected reasons, and the response object. -/
theorem perform_rug_check_first_ok (addr : String) (config : RugcheckConfig)
    (oracle : Nat → AttemptOutcome) (rc : RugcheckResponse)
    (hv : is_valid_solana_address addr = true)
    (h0 : oracle 0 = AttemptOutcome.ok rc) :
    perform_rug_check addr config oracle 3 =
      ((evaluateResponse config rc).isEmpty, evaluateResponse config rc, some rc) := by
  unfold perform_rug_check
  rw [hv]
  show rugCheckGo config oracle 3 (List.range 3) [] none = _
  rw [show List.range 3 = [0, 1, 2] from rfl]
  unfold rugCheckGo
  rw [h0]
  simp only [List.nil_append]
  cases hE : (evaluateResponse config rc).isEmpty
  · simp [hE]
  · simp [hE, List.isEmpty_iff.mp hE]

theorem mintCheckReasons_eq_nil_iff (config : RugcheckConfig) (rc : RugcheckResponse) :
    mintCheckReasons config rc = [] ↔
      (config.check_mint_authority && mintViolated rc) = false := by
  unfold mintCheckReasons mintViolated authorityViolated
  cases config.check_mint_authority with
  | false => simp
  | true =>
    cases rc.mintAuthority with
    | none => simp
    | some a =>
      by_cases h : (a != "" && a != "disabled") = true
      · simp [h]
      · rw [Bool.not_eq_true] at h
        simp [h]

theorem freezeCheckReasons_eq_nil_iff (config : RugcheckConfig) (rc : RugcheckResponse) :
    freezeCheckReasons config rc = [] ↔
      (config.check_freeze_authority && freezeViolated rc) = false := by
  unfold freezeCheckReasons freezeViolated authorityViolated
  cases config.check_freeze_authority with
  | false => simp
  | true =>
    cases rc.freezeAuthority with
    | none => simp
    | some a =>
      by_cases h : (a != "" && a != "disabled") = true
      · simp [h]
      · rw [Bool.not_eq_true] at h
        simp [h]

theorem holdersCheckReasons_eq_nil_iff (config : RugcheckConfig) (rc : RugcheckResponse) :
    holdersCheckReasons config rc = [] ↔
      (config.check_top_holders && holdersViolated config rc) = false := by
  unfold holdersCheckReasons holdersViolated
  cases config.check_top_holders with
  | false => simp
  | true =>
    by_cases h : config.max_top_holders_percentage < topHoldersPercentage rc.topHolders
    · simp [h]
    · simp [h]

theorem scoreCheckReasons_eq_nil_iff (config : RugcheckConfig) (rc : RugcheckResponse) :
    scoreCheckReasons config rc = [] ↔ scoreViolated config rc = false := by
  unfold scoreCheckReasons scoreViolated
  cases rc.score with
  | none => simp
  | some s =>
    by_cases h : config.risk_score_threshold < s
    · simp [h]
    · simp [h]

/-- The evaluation of one response yields no reason exactly when no enabled
criterion (with the score criterion always enabled) is violated. -/
theorem evaluateResponse_eq_nil_iff (config : RugcheckConfig) (rc : RugcheckResponse) :
    evaluateResponse config rc = [] ↔
      ((config.check_mint_authority && mintViolated rc) ||
       (config.check_freeze_authority && freezeViolated rc) ||
       (config.check_top_holders && holdersViolated config rc) ||
       scoreViolated config rc) = false := by
  unfold evaluateResponse
  simp only [List.append_eq_nil, Bool.or_eq_false_iff]
  rw [mintCheckReasons_eq_nil_iff, freezeCheckReasons_eq_nil_iff,
    holdersCheckReasons_eq_nil_iff, scoreCheckReasons_eq_nil_iff]

theorem mintCheckReasons_mem (config : RugcheckConfig) (rc : RugcheckResponse)
    (a : String) (hf : config.check_mint_authority = true)
    (ha : rc.mintAuthority = some a) (hvio : mintViolated rc = true) :
    Reason.mintAuthorityEnabled a ∈ mintCheckReasons config rc := by
  unfold mintViolated authorityViolated at hvio
  rw [ha] at hvio
  have hvio' : (a != "" && a != "disabled") = true := hvio
  unfold mintCheckReasons
  rw [hf, ha]
  simp [hvio']

theorem freezeCheckReasons_mem (config : RugcheckConfig) (rc : RugcheckResponse)
    (a : String) (hf : config.check_freeze_authority = true)
    (ha : rc.freezeAuthority = some a) (hvio : freezeViolated rc = true) :
    Reason.freezeAuthorityEnabled a ∈ freezeCheckReasons config rc := by
  unfold freezeViolated authorityViolated at hvio
  rw [ha] at hvio
  have hvio' : (a != "" && a != "disabled") = true := hvio
  unfold freezeCheckReasons
  rw [hf, ha]
  simp [hvio']

theorem holdersCheckReasons_mem (config : RugcheckConfig) (rc : RugcheckResponse)
    (hf : config.check_top_holders = true) (hvio : holdersViolated config rc = true) :
    Reason.topHoldersTooMuch (topHoldersPercentage rc.topHolders)
      config.max_top_holders_percentage ∈ holdersCheckReasons config rc := by
  unfold holdersViolated at hvio
  unfold holdersCheckReasons
  rw [hf]
  simp [of_decide_eq_true hvio]

theorem scoreCheckReasons_mem (config : RugcheckConfig) (rc : RugcheckResponse)
    (s : ℚ) (hs : rc.score = some s) (hgt : config.risk_score_threshold < s) :
    Reason.riskScoreTooHigh s config.risk_score_threshold ∈
      scoreCheckReasons config rc := by
  unfold scoreCheckReasons
  rw [hs]
  simp [hgt]

/-- C1: with a response in hand, the verdict is fail exactly when at least
one enabled criterion is violated (the score criterion carries no enabling
flag), and the reason list contains the corresponding reason for every
violated enabled criterion — no criterion is short-circuited by an earlier
violation. -/
theorem c1_aggregation_no_short_circuit (config : RugcheckConfig)
    (rc : RugcheckResponse) (addr : String) (oracle : Nat → AttemptOutcome)
    (hv : is_valid_solana_address addr = true)
    (h0 : oracle 0 = AttemptOutcome.ok rc) :
    ((perform_rug_check addr config oracle 3).1 = false ↔
      ((config.check_mint_authority && mintViolated rc) ||
       (config.check_freeze_authority && freezeViolated rc) ||
       (config.check_top_holders && holdersViolated config rc) ||
       scoreViolated config rc) = true) ∧
    (∀ a, config.check_mint_authority = true → rc.mintAuthority = some a →
      mintViolated rc = true →
      Reason.mintAuthorityEnabled a ∈ (perform_rug_check addr config oracle 3).2.1) ∧
    (∀ a, config.check_freeze_authority = true → rc.freezeAuthority = some a →
      freezeViolated rc = true →
      Reason.freezeAuthorityEnabled a ∈ (perform_rug_check addr config oracle 3).2.1) ∧
    (config.check_top_holders = true → holdersViolated config rc = true →
      Reason.topHoldersTooMuch (topHoldersPercentage rc.topHolders)
        config.max_top_holders_percentage ∈ (perform_rug_check addr config oracle 3).2.1) ∧
    (∀ s, rc.score = some s → config.risk_score_threshold < s →
      Reason.riskScoreTooHigh s config.risk_score_threshold ∈
        (perform_rug_check addr config oracle 3).2.1) := by
  rw [perform_rug_check_first_ok addr config oracle rc hv h0]
  refine ⟨?_, ?_, ?_, ?_, ?_⟩
  · rw [show (((evaluateResponse config rc).isEmpty, evaluateResponse config rc,
      some rc) : Bool × List Reason × Option RugcheckResponse).1 =
      (evaluateResponse config rc).isEmpty from rfl]
    rw [List.isEmpty_eq_false_iff_exists_mem]
    constructor
    · intro ⟨x, hx⟩
      by_contra hne
      rw [Bool.not_eq_true, ← evaluateResponse_eq_nil_iff] at hne
      rw [hne] at hx
      cases hx
    · intro hd
      by_contra hne
      push_neg at hne
      have : evaluateResponse config rc = [] := List.eq_nil_iff_forall_not_mem.mpr hne
      rw [evaluateResponse_eq_nil_iff] at this
      rw [this] at hd
      cases hd
  · intro a hf ha hvio
    exact List.mem_append_left _ (List.mem_append_left _ (List.mem_append_left _
      (mintCheckReasons_mem config rc a hf ha hvio)))
  · intro a hf ha hvio
    exact List.mem_append_left _ (List.mem_append_left _ (List.mem_append_right _
      (freezeCheckReasons_mem config rc a hf ha hvio)))
  · intro hf hvio
    exact List.mem_append_left _ (List.mem_append_right _
      (holdersCheckReasons_mem config rc hf hvio))
  · intro s hs hgt
    exact List.mem_append_right _ (scoreCheckReasons_mem config rc s hs hgt)

theorem c1_aggregation_no_short_circuit_witness :
    (perform_rug_check "11111111111111111111111111111111" ⟨true, true, true, 70, 40⟩
      (fun _ => AttemptOutcome.ok ⟨some "enabled", none, none, none⟩) 3).1 = false :=
  (c1_aggregation_no_short_circuit ⟨true, true, true, 70, 40⟩
    ⟨some "enabled", none, none, none⟩ "11111111111111111111111111111111"
    (fun _ => AttemptOutcome.ok ⟨some "enabled", none, none, none⟩)
    (by decide) rfl).1.mpr (by decide)

/-- C10: the risk-score criterion has no enabling flag: for every
configuration (in particular one with the three flags disabled), a present
score above `risk_score_threshold` puts the score-based reason in the
returned list and makes the verdict fail. -/
theorem c10_score_check_unconditional (config : RugcheckConfig)
    (rc : RugcheckResponse) (s : ℚ) (addr : String)
    (oracle : Nat → AttemptOutcome) (hs : rc.score = some s)
    (hgt : config.risk_score_threshold < s)
    (hv : is_valid_solana_address addr = true)
    (h0 : oracle 0 = AttemptOutcome.ok rc) :
    Reason.riskScoreTooHigh s config.risk_score_threshold ∈
      (perform_rug_check addr config oracle 3).2.1 ∧
    (perform_rug_check addr config oracle 3).1 = false := by
  have hmem := scoreCheckReasons_mem config rc s hs hgt
  have hmem' : Reason.riskScoreTooHigh s config.risk_score_threshold ∈
      evaluateResponse config rc :=
    List.mem_append_right _ hmem
  rw [perform_rug_check_first_ok addr config oracle rc hv h0]
  refine ⟨hmem', ?_⟩
  show (evaluateResponse config rc).isEmpty = false
  rw [List.isEmpty_eq_false_iff_exists_mem]
  exact ⟨_, hmem'⟩

theorem c10_score_check_unconditional_witness :
    Reason.riskScoreTooHigh 50 40 ∈
      (perform_rug_check "11111111111111111111111111111111" ⟨false, false, false, 70, 40⟩
        (fun _ => AttemptOutcome.ok ⟨none, none, none, some 50⟩) 3).2.1 ∧
    (perform_rug_check "11111111111111111111111111111111" ⟨false, false, false, 70, 40⟩
        (fun _ => AttemptOutcome.ok ⟨none, none, none, some 50⟩) 3).1 = false :=
  c10_score_check_unconditional ⟨false, false, false, 70, 40⟩
    ⟨none, none, none, some 50⟩ 50 "11111111111111111111111111111111"
    (fun _ => AttemptOutcome.ok ⟨none, none, none, some 50⟩) rfl (by norm_num)
    (by decide) rfl

/-! ### Holder concentration (C4) -/

theorem holderLe_trans (a b c : Holder)
    (hab : decide (b.amount ≤ a.amount) = true)
    (hbc : decide (c.amount ≤ b.amount) = true) :
    decide (c.amount ≤ a.amount) = true := by
  simp only [decide_eq_true_eq] at *
  exact le_trans hbc hab

theorem holderLe_total (a b : Holder) :
    (decide (b.amount ≤ a.amount) || decide (a.amount ≤ b.amount)) = true := by
  simp only [Bool.or_eq_true, decide_eq_true_eq]
  exact le_total b.amount a.amount

/-- The amounts of the descending stable sort are sorted. -/
theorem sorted_sortHoldersDesc (l : List Holder) :
    ((sortHoldersDesc l).map Holder.amount).Pairwise (fun a b : ℚ => b ≤ a) := by
  rw [List.pairwise_map]
  have hs := List.sorted_mergeSort holderLe_trans holderLe_total l
  exact hs.imp (fun h => of_decide_eq_true h)

/-- Two permuted holder lists have identical amount sequences once sorted by
descending amount: the sorted key sequence of a multiset is unique. -/
theorem sortHoldersDesc_map_amount {l₁ l₂ : List Holder} (h : l₁.Perm l₂) :
    (sortHoldersDesc l₁).map Holder.amount = (sortHoldersDesc l₂).map Holder.amount := by
  haveI : IsAntisymm ℚ (fun a b : ℚ => b ≤ a) := ⟨fun a b h1 h2 => le_antisymm h2 h1⟩
  refine List.eq_of_perm_of_sorted ?_ (sorted_sortHoldersDesc l₁) (sorted_sortHoldersDesc l₂)
  exact ((List.mergeSort_perm l₁ _).trans (h.trans (List.mergeSort_perm l₂ _).symm)).map _

theorem foldl_pct (hs : List Holder) (acc : ℚ) :
    hs.foldl (fun acc h => match h.percentage with | some p => acc + p | none => acc) acc =
      acc + (hs.map (fun h => h.percentage.getD 0)).sum := by
  induction hs generalizing acc with
  | nil => simp
  | cons h t ih =>
    cases hp : h.percentage with
    | none =>
      simp only [List.foldl_cons, hp, List.map_cons, List.sum_cons, Option.getD_none]
      rw [ih]
      ring
    | some p =>
      simp only [List.foldl_cons, hp, List.map_cons, List.sum_cons, Option.getD_some]
      rw [ih]
      ring

theorem optTotalPercentage_foldl (total : ℚ) (acc : ℚ) (top : List Holder) :
    top.foldl (fun acc h => acc + (if 0 < total then h.amount / total * 100 else 0)) acc =
      acc + ((top.map Holder.amount).map
        (fun a => if 0 < total then a / total * 100 else 0)).sum := by
  induction top generalizing acc with
  | nil => simp
  | cons h t ih =>
    simp only [List.foldl_cons, List.map_cons, List.sum_cons]
    rw [ih]
    ring

theorem topHoldersPercentage_list_eq (l : List Holder) :
    topHoldersPercentage (some (TopHolders.listShape l)) =
      if 0 < l.length then
        l.foldl (fun acc h =>
          match h.percentage with
          | some p => acc + p
          | none => acc) 0
      else 0 := rfl

theorem topHoldersPercentage_list_perm {l₁ l₂ : List Holder} (h : l₁.Perm l₂) :
    topHoldersPercentage (some (TopHolders.listShape l₁)) =
      topHoldersPercentage (some (TopHolders.listShape l₂)) := by
  rw [topHoldersPercentage_list_eq, topHoldersPercentage_list_eq, h.length_eq]
  by_cases hl : 0 < l₂.length
  · rw [if_pos hl, if_pos hl, foldl_pct, foldl_pct, (h.map _).sum_eq]
  · rw [if_neg hl, if_neg hl]

/-- C4: the holder-concentration number is invariant under every
permutation of the input holder list, for the optimized computation (total
raw amount, stable sort by descending amount, top-10 percentage sum) as
well as for both input shapes accepted by the basic evaluator (list of
per-holder percentage records, and dict carrying a precomputed total, the
latter carrying no list to permute). -/
theorem c4_holder_concentration_perm_invariant (l₁ l₂ : List Holder)
    (tp : Option ℚ) (h : l₁.Perm l₂) :
    optTotalPercentage l₁ = optTotalPercentage l₂ ∧
    topHoldersPercentage (some (TopHolders.listShape l₁)) =
      topHoldersPercentage (some (TopHolders.listShape l₂)) ∧
    topHoldersPercentage (some (TopHolders.dictShape tp)) =
      topHoldersPercentage (some (TopHolders.dictShape tp)) := by
  refine ⟨?_, topHoldersPercentage_list_perm h, rfl⟩
  unfold optTotalPercentage
  have htot : (l₁.map Holder.amount).sum = (l₂.map Holder.amount).sum := (h.map _).sum_eq
  rw [htot, optTotalPercentage_foldl, optTotalPercentage_foldl]
  simp only [List.map_take]
  rw [sortHoldersDesc_map_amount h]

theorem c4_holder_concentration_perm_invariant_witness :
    optTotalPercentage [⟨3, none⟩, ⟨5, some 10⟩] =
      optTotalPercentage [⟨5, some 10⟩, ⟨3, none⟩] ∧
    topHoldersPercentage (some (TopHolders.listShape [⟨3, none⟩, ⟨5, some 10⟩])) =
      topHoldersPercentage (some (TopHolders.listShape [⟨5, some 10⟩, ⟨3, none⟩])) ∧
    topHoldersPercentage (some (TopHolders.dictShape (some 85))) =
      topHoldersPercentage (some (TopHolders.dictShape (some 85))) :=
  c4_holder_concentration_perm_invariant [⟨3, none⟩, ⟨5, some 10⟩]
    [⟨5, some 10⟩, ⟨3, none⟩] (some 85) (by decide)

/-! ### Reconnect backoff (C7) -/

theorem stepDelays_bounds (eps : List Episode) (b0 : Nat)
    (h1 : 1 ≤ b0) (h60 : b0 ≤ 60) :
    ∀ d ∈ stepDelays eps b0, 1 ≤ d ∧ d ≤ 60 := by
  induction eps generalizing b0 with
  | nil => intro d hd; simp [stepDelays] at hd
  | cons e rest ih =>
    intro d hd
    rw [stepDelays] at hd
    rcases List.mem_cons.mp hd with h | h
    · subst h
      cases e with
      | connectFail => exact ⟨h1, h60⟩
      | connected n => simp only [episodeDelay]; omega
    · cases e with
      | connectFail => exact ih (min (b0 * 2) 60) (by omega) (by omega) d h
      | connected n => exact ih (min (1 * 2) 60) (by omega) (by omega) d h

/-- Along two consecutive failed iterations the slept delay does not
decrease. -/
theorem stepDelays_mono (eps : List Episode) (b0 : Nat) (h60 : b0 ≤ 60) :
    ∀ i di dj, eps[i]? = some Episode.connectFail →
      eps[i + 1]? = some Episode.connectFail →
      (stepDelays eps b0)[i]? = some di →
      (stepDelays eps b0)[i + 1]? = some dj → di ≤ dj := by
  induction eps generalizing b0 with
  | nil => intro i di dj hi; simp at hi
  | cons e rest ih =>
    intro i di dj hi hj hdi hdj
    cases i with
    | zero =>
      simp only [List.getElem?_cons_zero, Option.some.injEq] at hi hdi
      simp only [List.getElem?_cons_succ] at hj hdj
      subst hi
      cases rest with
      | nil => simp at hj
      | cons e' rest' =>
        simp only [List.getElem?_cons_zero, Option.some.injEq] at hj
        subst hj
        rw [stepDelays] at hdi hdj
        simp only [List.getElem?_cons_zero, Option.some.injEq] at hdi
        simp only [List.getElem?_cons_succ] at hdj
        rw [stepDelays] at hdj
        simp only [List.getElem?_cons_zero, Option.some.injEq] at hdj
        subst hdi
        subst hdj
        show b0 ≤ episodeDelay Episode.connectFail (nextBackoff Episode.connectFail b0)
        show b0 ≤ min (b0 * 2) 60
        omega
    | succ n =>
      simp only [List.getElem?_cons_succ] at hi hj
      rw [stepDelays] at hdi hdj
      simp only [List.getElem?_cons_succ] at hdi hdj
      cases e with
      | connectFail => exact ih (min (b0 * 2) 60) (by omega) n di dj hi hj hdi hdj
      | connected m => exact ih (min (1 * 2) 60) (by omega) n di dj hi hj hdi hdj

/-- Every iteration that establishes a connection (stable or not) sleeps
the floor delay: the backoff was reset by the connect/subscribe success. -/
theorem stepDelays_reset (eps : List Episode) (b0 : Nat) :
    ∀ (i n : Nat), eps[i]? = some (Episode.connected n) →
      (stepDelays eps b0)[i]? = some 1 := by
  induction eps generalizing b0 with
  | nil => intro i n hi; simp at hi
  | cons e rest ih =>
    intro i n hi
    cases i with
    | zero =>
      simp only [List.getElem?_cons_zero, Option.some.injEq] at hi
      subst hi
      rw [stepDelays]
      simp only [List.getElem?_cons_zero, episodeDelay]
    | succ m =>
      simp only [List.getElem?_cons_succ] at hi
      rw [stepDelays]
      simp only [List.getElem?_cons_succ]
      exact ih (nextBackoff e b0) m n hi

theorem ws_delays_bounds (failures : Nat) :
    ∀ retries b, 1 ≤ b → b ≤ 60 →
      ∀ d ∈ wsConnectionDelays failures retries b, b ≤ d ∧ d ≤ 60 := by
  induction failures with
  | zero => intro r b _ _ d hd; simp [wsConnectionDelays] at hd
  | succ f ih =>
    intro r b h1 h60 d hd
    cases r with
    | zero => simp [wsConnectionDelays] at hd
    | succ r1 =>
    cases r1 with
    | zero => simp [wsConnectionDelays] at hd
    | succ rr =>
      rw [wsConnectionDelays] at hd
      rcases List.mem_cons.mp hd with h | h
      · rw [h]; exact ⟨le_refl b, h60⟩
      · have hrec := ih (rr + 1) (min (b * 2) 60) (by omega) (by omega) d h
        exact ⟨by omega, hrec.2⟩

/-- The delays slept inside one call of the basic `websocket_connection`
never decrease. -/
theorem ws_delays_pairwise (failures : Nat) :
    ∀ retries b, 1 ≤ b → b ≤ 60 →
      (wsConnectionDelays failures retries b).Pairwise (· ≤ ·) := by
  induction failures with
  | zero => intro r b _ _; simp [wsConnectionDelays]
  | succ f ih =>
    intro r b h1 h60
    cases r with
    | zero => simp [wsConnectionDelays]
    | succ r1 =>
    cases r1 with
    | zero => simp [wsConnectionDelays]
    | succ rr =>
      rw [wsConnectionDelays]
      refine List.pairwise_cons.mpr ⟨?_, ih (rr + 1) (min (b * 2) 60) (by omega) (by omega)⟩
      intro d hd
      have hrec := ws_delays_bounds f (rr + 1) (min (b * 2) 60) (by omega) (by omega) d hd
      omega

/-- C7 counterexample: run the optimized reconnect loop through two
failures, then a connection that closes before delivering any message
(hence not stable in the spec's sense), then another failure. The slept
delays are 1, 2, 1, 2: the third iteration sleeps the floor delay 1 < 2 —
the backoff was reset by a connection that did not survive its first
message, and the delay decreased along a run with no stable connection,
refuting "reset to the floor only after a stable connection". -/
theorem c7_counterexample_reset_without_stability :
    spec_stable_connection (Episode.connected 0) = false ∧
    stepDelays [Episode.connectFail, Episode.connectFail, Episode.connected 0,
      Episode.connectFail] 1 = [1, 2, 1, 2] := by
  constructor
  · decide
  · decide

/-- C7 (amended): along consecutive connection failures the reconnect delay
never decreases and never exceeds the 60-second ceiling (and stays at or
above the floor); but the backoff is reset to the floor after every
successful connect-and-subscribe — even one that drops before the first
message — rather than only after a stable connection; the basic variant's
per-call retry loop likewise has nondecreasing delays capped at 60. -/
theorem c7_backoff_amended (eps : List Episode) (b0 : Nat)
    (h1 : 1 ≤ b0) (h60 : b0 ≤ 60) :
    (∀ d ∈ stepDelays eps b0, 1 ≤ d ∧ d ≤ 60) ∧
    (∀ i di dj, eps[i]? = some Episode.connectFail →
      eps[i + 1]? = some Episode.connectFail →
      (stepDelays eps b0)[i]? = some di →
      (stepDelays eps b0)[i + 1]? = some dj → di ≤ dj) ∧
    (∀ (i n : Nat), eps[i]? = some (Episode.connected n) →
      (stepDelays eps b0)[i]? = some 1) ∧
    (∀ failures retries,
      (wsConnectionDelays failures retries b0).Pairwise (· ≤ ·) ∧
      ∀ d ∈ wsConnectionDelays failures retries b0, 1 ≤ d ∧ d ≤ 60) := by
  refine ⟨stepDelays_bounds eps b0 h1 h60, stepDelays_mono eps b0 h60,
    stepDelays_reset eps b0, ?_⟩
  intro failures retries
  refine ⟨ws_delays_pairwise failures retries b0 h1 h60, ?_⟩
  intro d hd
  have hb := ws_delays_bounds failures retries b0 h1 h60 d hd
  omega

theorem c7_backoff_amended_witness :
    2 ∈ stepDelays [Episode.connectFail, Episode.connectFail] 1 ∧
    1 ≤ 2 ∧ 2 ≤ 60 :=
  ⟨by decide,
    (c7_backoff_amended [Episode.connectFail, Episode.connectFail] 1
      (by decide) (by decide)).1 2 (by decide)⟩

end ILoveSOL
